import Mathlib

/-!
# Verification of `sunpy.coordinates.transformations`

A shallow embedding of the coordinate-transformation functions of
`src/sunpy/coordinates/transformations.py`, together with theorems settling the
spec claims about this module.

Modelling conventions:
* Machine floating-point scalars are modelled by `ℚ` where the decisive values
  are exact in IEEE arithmetic (sums, differences, products of given inputs,
  matrix arithmetic), and by `Fq := Option ℚ` where NaN propagation matters
  (`none` models a non-finite value such as NaN).
* External collaborators named by the spec as out of scope (astropy's frame
  graph, representation conversions involving irrational trigonometry, the
  ephemeris provider, `numpy` square roots) enter as explicit function
  parameters of the embedded definitions.
* Python exceptions are modelled with `Except SunpyError`; a raised exception
  is `Except.error`, so no partial result accompanies an error.
-/

/-- A 3-component Cartesian vector with exact rational components, modelling a
`CartesianRepresentation` whose arithmetic stays exact. -/
structure Vec3 where
  x : ℚ
  y : ℚ
  z : ℚ
deriving DecidableEq

namespace Vec3

def add (a b : Vec3) : Vec3 := ⟨a.x + b.x, a.y + b.y, a.z + b.z⟩

def sub (a b : Vec3) : Vec3 := ⟨a.x - b.x, a.y - b.y, a.z - b.z⟩

def neg (a : Vec3) : Vec3 := ⟨-a.x, -a.y, -a.z⟩

def zero : Vec3 := ⟨0, 0, 0⟩

instance : Add Vec3 := ⟨add⟩

instance : Sub Vec3 := ⟨sub⟩

instance : Neg Vec3 := ⟨neg⟩

end Vec3

/-- A 3×3 matrix with exact rational entries (row-major fields `m i j`). -/
structure Mat3 where
  m00 : ℚ
  m01 : ℚ
  m02 : ℚ
  m10 : ℚ
  m11 : ℚ
  m12 : ℚ
  m20 : ℚ
  m21 : ℚ
  m22 : ℚ
deriving DecidableEq

namespace Mat3

def id : Mat3 := ⟨1, 0, 0, 0, 1, 0, 0, 0, 1⟩

def transpose (a : Mat3) : Mat3 :=
  ⟨a.m00, a.m10, a.m20, a.m01, a.m11, a.m21, a.m02, a.m12, a.m22⟩

def mul (a b : Mat3) : Mat3 :=
  ⟨a.m00 * b.m00 + a.m01 * b.m10 + a.m02 * b.m20,
   a.m00 * b.m01 + a.m01 * b.m11 + a.m02 * b.m21,
   a.m00 * b.m02 + a.m01 * b.m12 + a.m02 * b.m22,
   a.m10 * b.m00 + a.m11 * b.m10 + a.m12 * b.m20,
   a.m10 * b.m01 + a.m11 * b.m11 + a.m12 * b.m21,
   a.m10 * b.m02 + a.m11 * b.m12 + a.m12 * b.m22,
   a.m20 * b.m00 + a.m21 * b.m10 + a.m22 * b.m20,
   a.m20 * b.m01 + a.m21 * b.m11 + a.m22 * b.m21,
   a.m20 * b.m02 + a.m21 * b.m12 + a.m22 * b.m22⟩

/-- `M @ v`, the action of a matrix on a column vector, as used by
`CartesianRepresentation.transform`. -/
def mulVec (a : Mat3) (v : Vec3) : Vec3 :=
  ⟨a.m00 * v.x + a.m01 * v.y + a.m02 * v.z,
   a.m10 * v.x + a.m11 * v.y + a.m12 * v.z,
   a.m20 * v.x + a.m21 * v.y + a.m22 * v.z⟩

end Mat3

/-- The error kinds raised by the module, one constructor per distinct raise
site/exception class observed in the source (§7 of the spec names the abstract
taxonomy):
* `missingAttribute` — the `ValueError` "To perform this transformation the
  coordinate Frame needs an obstime Attribute" (spec kind `MissingAttributeError`);
* `incompatibleObserver` — the `ValueError` raised by `_observers_are_equal`
  when the two observers are not both frame instances (spec kind
  `IncompatibleObserverError`);
* `convertError` — astropy's `ConvertError` raised when an observer is an
  unresolved token where geometry is required;
* `missingDistanceError` — spec kind `MissingDistanceError` (raised by the
  spec-modelled `calculate_distance`, see below);
* `attributeError` — Python `AttributeError` from attribute access on a string;
* `nameError` — Python `NameError` from reading an unbound variable. -/
inductive SunpyError where
  | missingAttribute
  | incompatibleObserver
  | convertError (msg : String)
  | missingDistanceError
  | attributeError (msg : String)
  | nameError (msg : String)
deriving DecidableEq

/-- The data payload of a coordinate: astropy's Cartesian, Spherical and
UnitSpherical (angular-only, no distance) representation classes. -/
inductive PyRepr where
  | cart (v : Vec3)
  | sph (lon lat distance : ℚ)
  | unitSph (lon lat : ℚ)
deriving DecidableEq

/-- `represent.to_cartesian()` / `.cartesian`: conversion to Cartesian.  The
spherical-to-Cartesian conversions involve irrational trigonometry and are
supplied by the external representation library, so they enter as the
parameters `sphToCart` and `unitSphToCart`. -/
def PyRepr.toCartesian (sphToCart : ℚ → ℚ → ℚ → Vec3) (unitSphToCart : ℚ → ℚ → Vec3) :
    PyRepr → Vec3
  | PyRepr.cart v => v
  | PyRepr.sph lon lat d => sphToCart lon lat d
  | PyRepr.unitSph lon lat => unitSphToCart lon lat

/-!
## Floating-point scalars with non-finite tracking

The degenerate-parallel-vectors claim hinges on IEEE behaviour: the rotation
axis `A × B` of two parallel vectors is the exact zero vector (each component
is a difference `t - t` of identical products, which is exactly `0.0`), and
normalizing it divides by a zero norm, producing non-finite components.  `Fq`
models a float as `some q` (finite, exact) or `none` (non-finite: NaN or ±∞).
-/

abbrev Fq : Type := Option ℚ

def fadd (a b : Fq) : Fq :=
  match a with
  | none => none
  | some a' =>
    match b with
    | none => none
    | some b' => some (a' + b')

def fsub (a b : Fq) : Fq :=
  match a with
  | none => none
  | some a' =>
    match b with
    | none => none
    | some b' => some (a' - b')

def fmul (a b : Fq) : Fq :=
  match a with
  | none => none
  | some a' =>
    match b with
    | none => none
    | some b' => some (a' * b')

def fneg (a : Fq) : Fq :=
  match a with
  | none => none
  | some a' => some (-a')

/-- IEEE division: a finite value divided by zero is non-finite (`0/0` is NaN,
`x/0` is ±∞), and non-finite operands propagate. -/
def fdiv (a b : Fq) : Fq :=
  match a with
  | none => none
  | some a' =>
    match b with
    | none => none
    | some b' => if b' = 0 then none else some (a' / b')

/-- A float 3-vector (a `CartesianRepresentation` whose components may be
non-finite). -/
structure FVec3 where
  x : Fq
  y : Fq
  z : Fq
deriving DecidableEq

namespace FVec3

/-- The cross product `A.cross(B)` of `CartesianRepresentation`. -/
def cross (a b : FVec3) : FVec3 :=
  ⟨fsub (fmul a.y b.z) (fmul a.z b.y),
   fsub (fmul a.z b.x) (fmul a.x b.z),
   fsub (fmul a.x b.y) (fmul a.y b.x)⟩

/-- The dot product `A.dot(B)` of `CartesianRepresentation`. -/
def dot (a b : FVec3) : Fq :=
  fadd (fadd (fmul a.x b.x) (fmul a.y b.y)) (fmul a.z b.z)

/-- Astropy's `CartesianRepresentation.norm()`: the square root of the sum of
the squares of the components.  The square root itself is `numpy`'s (an
external collaborator working on irrational values), so it is a parameter. -/
def norm (fsqrt : Fq → Fq) (a : FVec3) : Fq :=
  fsqrt (dot a a)

end FVec3

/-- A float 3×3 matrix whose entries may be non-finite. -/
structure FMat3 where
  m00 : Fq
  m01 : Fq
  m02 : Fq
  m10 : Fq
  m11 : Fq
  m12 : Fq
  m20 : Fq
  m21 : Fq
  m22 : Fq
deriving DecidableEq

namespace FMat3

/-- The float identity matrix. -/
def identity : FMat3 :=
  ⟨some 1, some 0, some 0, some 0, some 1, some 0, some 0, some 0, some 1⟩

/-- The matrix all of whose entries are non-finite (NaN). -/
def nanMat : FMat3 :=
  ⟨none, none, none, none, none, none, none, none, none⟩

/-- Determinant, by cofactor expansion along the first row. -/
def det (a : FMat3) : Fq :=
  fadd
    (fsub (fmul a.m00 (fsub (fmul a.m11 a.m22) (fmul a.m12 a.m21)))
          (fmul a.m01 (fsub (fmul a.m10 a.m22) (fmul a.m12 a.m20))))
    (fmul a.m02 (fsub (fmul a.m10 a.m21) (fmul a.m11 a.m20)))

/-- Matrix-vector action `M @ v` over floats. -/
def mulVecF (a : FMat3) (v : FVec3) : FVec3 :=
  ⟨fadd (fadd (fmul a.m00 v.x) (fmul a.m01 v.y)) (fmul a.m02 v.z),
   fadd (fadd (fmul a.m10 v.x) (fmul a.m11 v.y)) (fmul a.m12 v.z),
   fadd (fadd (fmul a.m20 v.x) (fmul a.m21 v.y)) (fmul a.m22 v.z)⟩

end FMat3

/-- Modelled from the spec: the §4.1 kernel operation `axis_angle_matrix` for an
arbitrary axis vector.  Its implementation is astropy's
`matrix_utilities.rotation_matrix` (an external collaborator, not under
`src/`); the spec prescribes Rodrigues' rotation formula for arbitrary axis
vectors.  Rodrigues' formula presupposes a unit axis, so the axis is first
divided by its Euclidean norm (`axis / np.sqrt((axis * axis).sum())`); with a
zero axis this divides zero by zero, giving non-finite (NaN) components, which
then propagate into every entry of the resulting matrix.  The sine, cosine and
square root of the float angle are irrational-valued collaborators and enter as
parameters.  Entry layout follows the collaborator: starting from
`R[i][j] = aᵢ·aⱼ·(1-c)`, it adds `c` on the diagonal and `±aₖ·s` on the
off-diagonal entries. -/
def rotation_matrix_axis (fsqrt fcos fsin : Fq → Fq) (angle : Fq) (axis : FVec3) : FMat3 :=
  let n : Fq := FVec3.norm fsqrt axis
  let a0 : Fq := fdiv axis.x n
  let a1 : Fq := fdiv axis.y n
  let a2 : Fq := fdiv axis.z n
  let c : Fq := fcos angle
  let s : Fq := fsin angle
  let omc : Fq := fsub (some 1) c
  ⟨fadd (fmul (fmul a0 a0) omc) c,
   fadd (fmul (fmul a0 a1) omc) (fmul a2 s),
   fsub (fmul (fmul a0 a2) omc) (fmul a1 s),
   fsub (fmul (fmul a1 a0) omc) (fmul a2 s),
   fadd (fmul (fmul a1 a1) omc) c,
   fadd (fmul (fmul a1 a2) omc) (fmul a0 s),
   fadd (fmul (fmul a2 a0) omc) (fmul a1 s),
   fsub (fmul (fmul a2 a1) omc) (fmul a0 s),
   fadd (fmul (fmul a2 a2) omc) c⟩

/-- Lines 310-328 of the source: the matrix for the direct rotation from one
representation to a second representation (`_rotation_matrix_reprs_to_reprs`).
The rotation axis is `A.cross(B)` and the rotation angle is
`-arccos(A.dot(B) / (A.norm() * B.norm()))` (the negation is required by the
call sites); the matrix is produced by the axis-angle collaborator above.
`arccos` is a parameter (`facos`) alongside the other irrational-valued
collaborators. -/
def _rotation_matrix_reprs_to_reprs (fsqrt facos fcos fsin : Fq → Fq)
    (start_representation end_representation : FVec3) : FMat3 :=
  let A := start_representation
  let B := end_representation
  let rotation_axis := FVec3.cross A B
  let rotation_angle :=
    fneg (facos (fdiv (FVec3.dot A B) (fmul (FVec3.norm fsqrt A) (FVec3.norm fsqrt B))))
  rotation_matrix_axis fsqrt fcos fsin rotation_angle rotation_axis

/-- Helper: the matrix produced for two parallel representations.  For inputs
`A = V` and `B = ±V` the rotation axis `V × (±V)` is the exact zero vector, its
norm is `fsqrt 0 = 0`, and normalizing divides each zero component by zero, so
every entry of the resulting matrix is non-finite — whatever the (possibly
non-finite) angle, cosine and sine values are. -/
theorem reprs_to_reprs_zero_axis_nan (fsqrt facos fcos fsin : Fq → Fq)
    (h0 : fsqrt (some 0) = some 0) (A B : FVec3)
    (hax : FVec3.cross A B = ⟨some 0, some 0, some 0⟩) :
    _rotation_matrix_reprs_to_reprs fsqrt facos fcos fsin A B = FMat3.nanMat := by
  simp only [_rotation_matrix_reprs_to_reprs, rotation_matrix_axis]
  rw [hax]
  simp [FVec3.norm, FVec3.dot, fmul, fadd, fsub, fdiv, h0, FMat3.nanMat]

/-- C3: refuted as stated; the code is the bug.  The spec demands that
`vector_to_vector_matrix(V, V)` return the identity and
`vector_to_vector_matrix(V, -V)` return a valid 180° rotation (orthonormal,
determinant +1, mapping `V` to `-V`), without raising.  In the code
(`_rotation_matrix_reprs_to_reprs`), parallel inputs give the rotation axis
`V × ±V = (0,0,0)` exactly, and the axis-angle collaborator divides the axis by
its zero norm, so at the failing input `V = (1,0,0)` every entry of the
returned matrix is NaN: the result is not the identity, its determinant is not
+1, and it does not map `V` to `-V` (no exception is raised, but the
"must yield identity / a valid 180° rotation" part fails).  The only
assumption is that the square-root collaborator sends 0 to 0. -/
theorem c3_parallel_vectors_nan (fsqrt facos fcos fsin : Fq → Fq)
    (h0 : fsqrt (some 0) = some 0) :
    _rotation_matrix_reprs_to_reprs fsqrt facos fcos fsin
        ⟨some 1, some 0, some 0⟩ ⟨some 1, some 0, some 0⟩ = FMat3.nanMat
    ∧ _rotation_matrix_reprs_to_reprs fsqrt facos fcos fsin
        ⟨some 1, some 0, some 0⟩ ⟨some (-1), some 0, some 0⟩ = FMat3.nanMat
    ∧ FMat3.nanMat ≠ FMat3.identity
    ∧ FMat3.det FMat3.nanMat ≠ some 1
    ∧ FMat3.mulVecF FMat3.nanMat ⟨some 1, some 0, some 0⟩ ≠ ⟨some (-1), some 0, some 0⟩ := by
  refine ⟨?_, ?_, by decide, by decide, by decide⟩
  · exact reprs_to_reprs_zero_axis_nan fsqrt facos fcos fsin h0 _ _
      (by simp [FVec3.cross, fmul, fsub])
  · exact reprs_to_reprs_zero_axis_nan fsqrt facos fcos fsin h0 _ _
      (by simp [FVec3.cross, fmul, fsub])

/-- Witness for C3: a concrete instantiation of the collaborators (with the
square-root hypothesis discharged by `rfl`) at the failing input `V = (1,0,0)`. -/
theorem c3_parallel_vectors_nan_witness :
    _rotation_matrix_reprs_to_reprs (fun q => q) (fun q => q) (fun q => q) (fun q => q)
        ⟨some 1, some 0, some 0⟩ ⟨some 1, some 0, some 0⟩ = FMat3.nanMat
    ∧ _rotation_matrix_reprs_to_reprs (fun q => q) (fun q => q) (fun q => q) (fun q => q)
        ⟨some 1, some 0, some 0⟩ ⟨some (-1), some 0, some 0⟩ = FMat3.nanMat
    ∧ FMat3.nanMat ≠ FMat3.identity
    ∧ FMat3.det FMat3.nanMat ≠ some 1
    ∧ FMat3.mulVecF FMat3.nanMat ⟨some 1, some 0, some 0⟩ ≠ ⟨some (-1), some 0, some 0⟩ :=
  c3_parallel_vectors_nan (fun q => q) (fun q => q) (fun q => q) (fun q => q) rfl

/-!
## Observers and observer equality (lines 68-78 of the source)
-/

/-- An observer frame: a resolved Heliographic Stonyhurst coordinate carrying
latitude, longitude, radius and an observation time. -/
structure ObserverFrame where
  lat : ℚ
  lon : ℚ
  radius : ℚ
  obstime : Option ℚ
deriving DecidableEq

/-- The `observer` attribute: either an unresolved string token (e.g. "earth")
or a resolved frame instance. -/
inductive PyObserver where
  | str (s : String)
  | frame (f : ObserverFrame)
deriving DecidableEq

/-- Python `==` on two observer attributes.  Strings compare by value; in the
astropy generation targeted by this module, frames do not define `__eq__`, so
two frame arguments compare by object identity — the two arguments of a
comparison are modelled as distinct objects, hence `false` — and a
string/frame mix is unequal. -/
def pyObserverEq : PyObserver → PyObserver → Bool
  | PyObserver.str a, PyObserver.str b => a == b
  | _, _ => false

/-- Lines 68-78 of the source: `_observers_are_equal(obs_1, obs_2, string_ok)`.
If `string_ok` and the two observers compare `==`, return `True`; otherwise
both must be frame instances (else a `ValueError` is raised), and the result
compares latitude, longitude and radius with `u.allclose` (the floating
tolerance predicate of the external units library, a parameter) and `obstime`
with exact `==`. -/
def _observers_are_equal (allclose : ℚ → ℚ → Bool) (obs_1 obs_2 : PyObserver)
    (string_ok : Bool) : Except SunpyError Bool :=
  if string_ok && pyObserverEq obs_1 obs_2 then Except.ok true
  else
    match obs_1, obs_2 with
    | PyObserver.frame f1, PyObserver.frame f2 =>
      Except.ok (allclose f1.lat f2.lat && allclose f1.lon f2.lon &&
                 allclose f1.radius f2.radius && (f1.obstime == f2.obstime))
    | _, _ => Except.error SunpyError.incompatibleObserver

/-- C5 (confirmed): `observers_equal(a, b, allow_string)` returns true exactly
when either `allow_string` is set and the two observers are `==` as opaque
tokens, or both are resolved frame instances whose latitude, longitude and
radius agree within the floating tolerance and whose `obstime` agrees exactly;
and it raises (the incompatible-observer `ValueError`) exactly when the token
shortcut does not apply and the two sides are not both resolved frame
instances — in particular whenever either side is an unresolved token while
`allow_string` is false. -/
theorem c5_observers_equal_contract (allclose : ℚ → ℚ → Bool) (o1 o2 : PyObserver)
    (allow_string : Bool) :
    (_observers_are_equal allclose o1 o2 allow_string = Except.ok true ↔
      ((allow_string = true ∧ pyObserverEq o1 o2 = true) ∨
        (∃ f1 f2, o1 = PyObserver.frame f1 ∧ o2 = PyObserver.frame f2 ∧
          allclose f1.lat f2.lat = true ∧ allclose f1.lon f2.lon = true ∧
          allclose f1.radius f2.radius = true ∧ f1.obstime = f2.obstime)))
    ∧ (_observers_are_equal allclose o1 o2 allow_string =
          Except.error SunpyError.incompatibleObserver ↔
        (¬(allow_string = true ∧ pyObserverEq o1 o2 = true) ∧
          ∀ f1 f2, ¬(o1 = PyObserver.frame f1 ∧ o2 = PyObserver.frame f2))) := by
  cases o1 <;> cases o2 <;> cases allow_string <;>
    simp [_observers_are_equal, pyObserverEq] <;>
    aesop

/-- Witness for C5: at `allow_string = true` both the token path (two "earth"
strings) and the resolved path (two equal frames under an exact-equality
tolerance) return true, and a token/frame mix with `allow_string = false`
raises. -/
theorem c5_observers_equal_contract_witness :
    _observers_are_equal (fun a b => a == b) (PyObserver.str "earth") (PyObserver.str "earth")
        true = Except.ok true
    ∧ _observers_are_equal (fun a b => a == b)
        (PyObserver.frame ⟨0, 0, 1, some 0⟩) (PyObserver.frame ⟨0, 0, 1, some 0⟩)
        false = Except.ok true
    ∧ _observers_are_equal (fun a b => a == b)
        (PyObserver.str "earth") (PyObserver.frame ⟨0, 0, 1, some 0⟩)
        false = Except.error SunpyError.incompatibleObserver :=
  ⟨(c5_observers_equal_contract (fun a b => a == b) (PyObserver.str "earth")
      (PyObserver.str "earth") true).1.mpr (Or.inl ⟨rfl, by decide⟩),
   (c5_observers_equal_contract (fun a b => a == b)
      (PyObserver.frame ⟨0, 0, 1, some 0⟩) (PyObserver.frame ⟨0, 0, 1, some 0⟩) false).1.mpr
     (Or.inr ⟨⟨0, 0, 1, some 0⟩, ⟨0, 0, 1, some 0⟩, rfl, rfl, by decide, by decide, by decide,
       rfl⟩),
   (c5_observers_equal_contract (fun a b => a == b) (PyObserver.str "earth")
      (PyObserver.frame ⟨0, 0, 1, some 0⟩) false).2.mpr
     ⟨by simp [pyObserverEq], by simp⟩⟩

/-!
## Frames and coordinates

`TimeCoord`/`TimeFrameT` model frames whose only attribute is `obstime`
(HGS, HGC, HEE, GSE, HCI, GEI); `ObsCoord`/`ObsFrameT` model the
observer-carrying frames (Helioprojective, Heliocentric).  A frame template
carries only attributes; `realize_frame` attaches data to a template.
-/

structure TimeCoord where
  obstime : Option ℚ
  data : PyRepr
deriving DecidableEq

structure TimeFrameT where
  obstime : Option ℚ
deriving DecidableEq

/-- Astropy's `frame.realize_frame(data)`: the destination template's
attributes with the given data attached. -/
def TimeFrameT.realize (f : TimeFrameT) (d : PyRepr) : TimeCoord :=
  ⟨f.obstime, d⟩

structure ObsCoord where
  obstime : Option ℚ
  observer : PyObserver
  data : PyRepr
deriving DecidableEq

structure ObsFrameT where
  obstime : Option ℚ
  observer : PyObserver
deriving DecidableEq

/-- Astropy's `frame.realize_frame(data)` for observer-carrying frames. -/
def ObsFrameT.realize (f : ObsFrameT) (d : PyRepr) : ObsCoord :=
  ⟨f.obstime, f.observer, d⟩

/-!
## Same-kind transforms (lines 449-487, 542-551, 603-612, 675-684, 734-743,
286-307 of the source)

Each `X→X` transform first tests whether the destination attributes match the
source (`np.all(from_coo.obstime == to_frame.obstime)`, and for
observer-carrying frames `_observers_are_equal(..., string_ok=True)`); on a
match it returns `to_frame.realize_frame(from_coo.data)` with no computation.
Otherwise it loops back through an intermediate frame; that branch composes
other graph transforms (and the ephemeris), so it enters as an explicit
`pivot` parameter.
-/

/-- Lines 449-458: HGS→HGS; the non-matching branch pivots through HCRS. -/
def hgs_to_hgs (pivot : TimeCoord → TimeFrameT → TimeCoord)
    (from_coo : TimeCoord) (to_frame : TimeFrameT) : TimeCoord :=
  if from_coo.obstime == to_frame.obstime then to_frame.realize from_coo.data
  else pivot from_coo to_frame

/-- Lines 461-471: HGC→HGC; the non-matching branch pivots through HGS. -/
def hgc_to_hgc (pivot : TimeCoord → TimeFrameT → TimeCoord)
    (from_coo : TimeCoord) (to_frame : TimeFrameT) : TimeCoord :=
  if from_coo.obstime == to_frame.obstime then to_frame.realize from_coo.data
  else pivot from_coo to_frame

/-- Lines 542-551: HEE→HEE; the non-matching branch pivots through HCRS. -/
def hee_to_hee (pivot : TimeCoord → TimeFrameT → TimeCoord)
    (from_coo : TimeCoord) (to_frame : TimeFrameT) : TimeCoord :=
  if from_coo.obstime == to_frame.obstime then to_frame.realize from_coo.data
  else pivot from_coo to_frame

/-- Lines 603-612: GSE→GSE; the non-matching branch pivots through HEE. -/
def gse_to_gse (pivot : TimeCoord → TimeFrameT → TimeCoord)
    (from_coo : TimeCoord) (to_frame : TimeFrameT) : TimeCoord :=
  if from_coo.obstime == to_frame.obstime then to_frame.realize from_coo.data
  else pivot from_coo to_frame

/-- Lines 675-684: HCI→HCI; the non-matching branch pivots through HCRS. -/
def hci_to_hci (pivot : TimeCoord → TimeFrameT → TimeCoord)
    (from_coo : TimeCoord) (to_frame : TimeFrameT) : TimeCoord :=
  if from_coo.obstime == to_frame.obstime then to_frame.realize from_coo.data
  else pivot from_coo to_frame

/-- Lines 734-743: GEI→GEI; the non-matching branch pivots through HCRS. -/
def gei_to_gei (pivot : TimeCoord → TimeFrameT → TimeCoord)
    (from_coo : TimeCoord) (to_frame : TimeFrameT) : TimeCoord :=
  if from_coo.obstime == to_frame.obstime then to_frame.realize from_coo.data
  else pivot from_coo to_frame

/-- Lines 286-307: HPC→HPC.  The shortcut needs equal observers
(`string_ok=True`, which may itself raise) and equal obstime; otherwise both
observers must be resolved frame instances (`ConvertError` if not) and the
coordinate pivots through HGS at the destination obstime. -/
def hpc_to_hpc (pivot : ObsCoord → ObsFrameT → Except SunpyError ObsCoord)
    (allclose : ℚ → ℚ → Bool) (from_coo : ObsCoord) (to_frame : ObsFrameT) :
    Except SunpyError ObsCoord := do
  let eq ← _observers_are_equal allclose from_coo.observer to_frame.observer true
  if eq && (from_coo.obstime == to_frame.obstime) then
    return to_frame.realize from_coo.data
  else
    match to_frame.observer with
    | PyObserver.str s => throw (SunpyError.convertError s)
    | PyObserver.frame _ =>
      match from_coo.observer with
      | PyObserver.str s => throw (SunpyError.convertError s)
      | PyObserver.frame _ => pivot from_coo to_frame

/-- Lines 474-487: HCC→HCC.  The shortcut is as for HPC→HPC; the non-matching
branch pivots through HGS at the destination obstime (with no explicit
observer-type checks of its own). -/
def hcc_to_hcc (pivot : ObsCoord → ObsFrameT → Except SunpyError ObsCoord)
    (allclose : ℚ → ℚ → Bool) (from_coo : ObsCoord) (to_frame : ObsFrameT) :
    Except SunpyError ObsCoord := do
  let eq ← _observers_are_equal allclose from_coo.observer to_frame.observer true
  if eq && (from_coo.obstime == to_frame.obstime) then
    return to_frame.realize from_coo.data
  else
    pivot from_coo to_frame

/-- C2 (confirmed): every same-kind `X→X` transform, when the destination
obstime equals the source's (and, for the observer-carrying kinds, the
observers are equal in the sense of `_observers_are_equal` with
`string_ok=True`), returns the destination template realized with the
source's data object unchanged — bit-identical data, and the pivot branch
(the only geometric computation) is never consulted: the result is the same
for every possible `pivot`. -/
theorem c2_same_kind_shortcut
    (p1 p2 p3 p4 p5 p6 : TimeCoord → TimeFrameT → TimeCoord)
    (p7 p8 : ObsCoord → ObsFrameT → Except SunpyError ObsCoord)
    (allclose : ℚ → ℚ → Bool) (t : Option ℚ) (d : PyRepr) (o1 o2 : PyObserver)
    (heq : _observers_are_equal allclose o1 o2 true = Except.ok true) :
    hgs_to_hgs p1 ⟨t, d⟩ ⟨t⟩ = ⟨t, d⟩
    ∧ hgc_to_hgc p2 ⟨t, d⟩ ⟨t⟩ = ⟨t, d⟩
    ∧ hee_to_hee p3 ⟨t, d⟩ ⟨t⟩ = ⟨t, d⟩
    ∧ gse_to_gse p4 ⟨t, d⟩ ⟨t⟩ = ⟨t, d⟩
    ∧ hci_to_hci p5 ⟨t, d⟩ ⟨t⟩ = ⟨t, d⟩
    ∧ gei_to_gei p6 ⟨t, d⟩ ⟨t⟩ = ⟨t, d⟩
    ∧ hpc_to_hpc p7 allclose ⟨t, o1, d⟩ ⟨t, o2⟩ = Except.ok ⟨t, o2, d⟩
    ∧ hcc_to_hcc p8 allclose ⟨t, o1, d⟩ ⟨t, o2⟩ = Except.ok ⟨t, o2, d⟩ := by
  refine ⟨?_, ?_, ?_, ?_, ?_, ?_, ?_, ?_⟩ <;>
    simp [hgs_to_hgs, hgc_to_hgc, hee_to_hee, gse_to_gse, hci_to_hci, gei_to_gei,
      hpc_to_hpc, hcc_to_hcc, TimeFrameT.realize, ObsFrameT.realize, heq,
      bind, Except.bind, pure, Except.pure]

/-- Witness for C2: concrete equal attributes (obstime 1, identical resolved
observers under an exact-equality tolerance, identity pivots) reproduce the
input data bit-for-bit in all eight transforms. -/
theorem c2_same_kind_shortcut_witness :
    hgs_to_hgs (fun c _ => c) ⟨some 1, PyRepr.cart ⟨1, 2, 3⟩⟩ ⟨some 1⟩
        = ⟨some 1, PyRepr.cart ⟨1, 2, 3⟩⟩
    ∧ hgc_to_hgc (fun c _ => c) ⟨some 1, PyRepr.cart ⟨1, 2, 3⟩⟩ ⟨some 1⟩
        = ⟨some 1, PyRepr.cart ⟨1, 2, 3⟩⟩
    ∧ hee_to_hee (fun c _ => c) ⟨some 1, PyRepr.cart ⟨1, 2, 3⟩⟩ ⟨some 1⟩
        = ⟨some 1, PyRepr.cart ⟨1, 2, 3⟩⟩
    ∧ gse_to_gse (fun c _ => c) ⟨some 1, PyRepr.cart ⟨1, 2, 3⟩⟩ ⟨some 1⟩
        = ⟨some 1, PyRepr.cart ⟨1, 2, 3⟩⟩
    ∧ hci_to_hci (fun c _ => c) ⟨some 1, PyRepr.cart ⟨1, 2, 3⟩⟩ ⟨some 1⟩
        = ⟨some 1, PyRepr.cart ⟨1, 2, 3⟩⟩
    ∧ gei_to_gei (fun c _ => c) ⟨some 1, PyRepr.cart ⟨1, 2, 3⟩⟩ ⟨some 1⟩
        = ⟨some 1, PyRepr.cart ⟨1, 2, 3⟩⟩
    ∧ hpc_to_hpc (fun c _ => Except.ok c) (fun a b => a == b)
        ⟨some 1, PyObserver.frame ⟨0, 0, 1, some 1⟩, PyRepr.cart ⟨1, 2, 3⟩⟩
        ⟨some 1, PyObserver.frame ⟨0, 0, 1, some 1⟩⟩
        = Except.ok ⟨some 1, PyObserver.frame ⟨0, 0, 1, some 1⟩, PyRepr.cart ⟨1, 2, 3⟩⟩
    ∧ hcc_to_hcc (fun c _ => Except.ok c) (fun a b => a == b)
        ⟨some 1, PyObserver.frame ⟨0, 0, 1, some 1⟩, PyRepr.cart ⟨1, 2, 3⟩⟩
        ⟨some 1, PyObserver.frame ⟨0, 0, 1, some 1⟩⟩
        = Except.ok ⟨some 1, PyObserver.frame ⟨0, 0, 1, some 1⟩, PyRepr.cart ⟨1, 2, 3⟩⟩ :=
  c2_same_kind_shortcut (fun c _ => c) (fun c _ => c) (fun c _ => c) (fun c _ => c)
    (fun c _ => c) (fun c _ => c) (fun c _ => Except.ok c) (fun c _ => Except.ok c)
    (fun a b => a == b) (some 1) (PyRepr.cart ⟨1, 2, 3⟩)
    (PyObserver.frame ⟨0, 0, 1, some 1⟩) (PyObserver.frame ⟨0, 0, 1, some 1⟩)
    (by simp [_observers_are_equal, pyObserverEq])

/-!
## Obstime loopback (lines 86-101 of the source)
-/

/-- Lines 86-101: `_transform_obstime(frame, obstime)`.  If the new obstime is
`None` or matches the frame's (`np.all(frame.obstime == obstime)`), the frame
is returned unchanged.  Otherwise the frame is replicated with the new obstime
(`frame.replicate(obstime=obstime)`, keeping the data); if the frame had an
obstime of its own, the coordinate is transformed to the replicated frame via
the graph's same-kind loopback (`frame.transform_to(new_frame)`, the
`transform_to` parameter), and if it had none the bare replicated copy is
returned. -/
def _transform_obstime (transform_to : TimeCoord → TimeCoord → TimeCoord)
    (frame : TimeCoord) (obstime : Option ℚ) : TimeCoord :=
  if obstime = none ∨ frame.obstime = obstime then frame
  else
    let new_frame : TimeCoord := { frame with obstime := obstime }
    if frame.obstime ≠ none then transform_to frame new_frame else new_frame

/-- The same source function `_transform_obstime`, at its second use site: the
frame being retimed is an observer (a resolved Heliographic Stonyhurst
instance), whose replicate keeps latitude/longitude/radius. -/
def _transform_obstime_observer
    (transform_to : ObserverFrame → ObserverFrame → ObserverFrame)
    (frame : ObserverFrame) (obstime : Option ℚ) : ObserverFrame :=
  if obstime = none ∨ frame.obstime = obstime then frame
  else
    let new_frame : ObserverFrame := { frame with obstime := obstime }
    if frame.obstime ≠ none then transform_to frame new_frame else new_frame

/-- C6 (confirmed): `retime(coord, target_time)` returns `coord` itself when
the target is unset or equals the coordinate's obstime; attaches the target
time to a copy (same data, no geometric change) when the coordinate's obstime
is unset; and otherwise hands the coordinate and the retimed replica to the
same-frame-kind loopback transform. -/
theorem c6_transform_obstime_contract (transform_to : TimeCoord → TimeCoord → TimeCoord)
    (c : TimeCoord) (t : Option ℚ) :
    (_transform_obstime transform_to c none = c)
    ∧ (c.obstime = t → _transform_obstime transform_to c t = c)
    ∧ (∀ q : ℚ, c.obstime = none → _transform_obstime transform_to c (some q)
        = ⟨some q, c.data⟩)
    ∧ (∀ q s : ℚ, c.obstime = some s → s ≠ q →
        _transform_obstime transform_to c (some q) = transform_to c ⟨some q, c.data⟩) := by
  obtain ⟨ct, cd⟩ := c
  refine ⟨by simp [_transform_obstime], ?_, ?_, ?_⟩
  · intro h
    simp only at h
    subst h
    simp [_transform_obstime]
  · intro q h
    simp only at h
    subst h
    simp [_transform_obstime]
  · intro q s h hne
    simp only at h
    subst h
    simp [_transform_obstime, Option.some_inj, hne]

/-- Witness for C6: the four branches evaluated at concrete inputs through the
theorem (unset target; matching target `1`; unset source obstime; differing
times `0 → 1` delegating to the loopback, instantiated as the
first-projection collaborator). -/
theorem c6_transform_obstime_contract_witness :
    _transform_obstime (fun a _ => a) ⟨some 1, PyRepr.cart ⟨1, 2, 3⟩⟩ none
        = ⟨some 1, PyRepr.cart ⟨1, 2, 3⟩⟩
    ∧ _transform_obstime (fun a _ => a) ⟨some 1, PyRepr.cart ⟨1, 2, 3⟩⟩ (some 1)
        = ⟨some 1, PyRepr.cart ⟨1, 2, 3⟩⟩
    ∧ _transform_obstime (fun a _ => a) ⟨none, PyRepr.cart ⟨1, 2, 3⟩⟩ (some 1)
        = ⟨some 1, PyRepr.cart ⟨1, 2, 3⟩⟩
    ∧ _transform_obstime (fun a _ => a) ⟨some 0, PyRepr.cart ⟨1, 2, 3⟩⟩ (some 1)
        = (fun (a : TimeCoord) (_ : TimeCoord) => a) ⟨some 0, PyRepr.cart ⟨1, 2, 3⟩⟩
            ⟨some 1, PyRepr.cart ⟨1, 2, 3⟩⟩ :=
  ⟨(c6_transform_obstime_contract (fun a _ => a) ⟨some 1, PyRepr.cart ⟨1, 2, 3⟩⟩ none).1,
   (c6_transform_obstime_contract (fun a _ => a) ⟨some 1, PyRepr.cart ⟨1, 2, 3⟩⟩
      (some 1)).2.1 rfl,
   (c6_transform_obstime_contract (fun a _ => a) ⟨none, PyRepr.cart ⟨1, 2, 3⟩⟩
      (some 1)).2.2.1 1 rfl,
   (c6_transform_obstime_contract (fun a _ => a) ⟨some 0, PyRepr.cart ⟨1, 2, 3⟩⟩
      (some 1)).2.2.2 1 0 rfl (by decide)⟩

theorem Vec3.add_def (a b : Vec3) : a + b = ⟨a.x + b.x, a.y + b.y, a.z + b.z⟩ := rfl

theorem Vec3.sub_def (a b : Vec3) : a - b = ⟨a.x - b.x, a.y - b.y, a.z - b.z⟩ := rfl

theorem Vec3.neg_def (a : Vec3) : -a = ⟨-a.x, -a.y, -a.z⟩ := rfl

/-!
## The HCRS ↔ Heliographic Stonyhurst affine transform (lines 370-446)
-/

/-- An astropy affine-transform offset: a translation with an optional
velocity differential (`CartesianRepresentation.with_differentials`). -/
structure CartOffset where
  pos : Vec3
  vel : Option Vec3
deriving DecidableEq

/-- Astropy's `CartesianRepresentation.transform(matrix)`: the matrix acts on
the position and on any attached differential alike. -/
def CartOffset.transform (o : CartOffset) (m : Mat3) : CartOffset :=
  ⟨m.mulVec o.pos, o.vel.map (fun v => m.mulVec v)⟩

/-- Lines 370-424: `hcrs_to_hgs`, the affine HCRS→HGS transform, returning the
rotation matrix and the offset.  After the obstime guard (a `ValueError` when
the HGS frame has no obstime), the rotation part — lines 391-408: the
ephemeris Sun-Earth vector de-tilted by the precomputed solar-pole matrix and
rotated about Z into the XZ plane — is irrational-valued trigonometric
geometry evaluated at the HGS obstime and enters as the parameter
`total_matrix`.  The offset logic of lines 410-423 is embedded exactly: if the
two observation times differ, the translation is the Sun's barycentric
position difference `sun_pos(hgs_obstime) - sun_pos(hcrs_obstime)` (ephemeris
collaborator `sun_pos`), else the zero vector; if differentials are involved
on either end, the velocity `sun_vel - earth_vel` is attached; finally the
offset is rotated by `total_matrix`. -/
def hcrs_to_hgs (total_matrix : Mat3) (sun_pos : Option ℚ → Vec3)
    (sun_vel earth_vel : Vec3) (has_differentials : Bool)
    (hcrs_obstime hgs_obstime : Option ℚ) : Except SunpyError (Mat3 × CartOffset) :=
  if hgs_obstime = none then Except.error SunpyError.missingAttribute
  else
    let offset_pos : Vec3 :=
      if hcrs_obstime ≠ hgs_obstime then sun_pos hgs_obstime - sun_pos hcrs_obstime
      else Vec3.zero
    let offset_icrf : CartOffset :=
      if has_differentials then ⟨offset_pos, some (sun_vel - earth_vel)⟩
      else ⟨offset_pos, none⟩
    Except.ok (total_matrix, offset_icrf.transform total_matrix)

/-- Lines 427-446: `hgs_to_hcrs` computes the forward matrix and offset by
calling `hcrs_to_hgs(hcrsframe, hgscoord)`, then inverts: the reverse matrix
is the transpose; the offset is negated — negating the position and, when a
differential is attached, the velocity separately — and rotated by the
reverse matrix. -/
def hgs_to_hcrs (total_matrix : Mat3) (sun_pos : Option ℚ → Vec3)
    (sun_vel earth_vel : Vec3) (has_differentials : Bool)
    (hgs_obstime hcrs_obstime : Option ℚ) : Except SunpyError (Mat3 × CartOffset) := do
  let fwd ← hcrs_to_hgs total_matrix sun_pos sun_vel earth_vel has_differentials
    hcrs_obstime hgs_obstime
  let reverse_matrix := fwd.1.transpose
  let offset : CartOffset :=
    match fwd.2.vel with
    | some v => ⟨-fwd.2.pos, some (-v)⟩
    | none => ⟨-fwd.2.pos, none⟩
  Except.ok (reverse_matrix, offset.transform reverse_matrix)

/-- C7 (confirmed): the reverse HGS→HCRS affine transform is built from the
forward HCRS→HGS one by exact transposition of the rotation matrix and by
rotating the negated offset (with the velocity component negated separately
and sign-correctly) into the destination basis; consequently — because the
forward rotation is orthonormal (`Mᵀ·M = I`, the spec's §3 invariant for the
matrix produced by lines 391-408) — applying the forward affine map and then
the reverse one is the identity on positions and on velocities. -/
theorem c7_hgs_to_hcrs_exact_inverse (total_matrix : Mat3) (sun_pos : Option ℚ → Vec3)
    (sun_vel earth_vel : Vec3) (has_differentials : Bool) (t1 t2 : Option ℚ)
    (fwd rev : Mat3 × CartOffset)
    (hf : hcrs_to_hgs total_matrix sun_pos sun_vel earth_vel has_differentials t1 t2
        = Except.ok fwd)
    (hr : hgs_to_hcrs total_matrix sun_pos sun_vel earth_vel has_differentials t2 t1
        = Except.ok rev)
    (horth : fwd.1.transpose.mul fwd.1 = Mat3.id) :
    rev.1 = fwd.1.transpose
    ∧ rev.2.pos = fwd.1.transpose.mulVec (-fwd.2.pos)
    ∧ rev.2.vel = fwd.2.vel.map (fun v => fwd.1.transpose.mulVec (-v))
    ∧ (∀ x : Vec3, rev.1.mulVec (fwd.1.mulVec x + fwd.2.pos) + rev.2.pos = x)
    ∧ (∀ v w w' : Vec3, fwd.2.vel = some w → rev.2.vel = some w' →
        rev.1.mulVec (fwd.1.mulVec v + w) + w' = v) := by
  have h1 := congrArg Mat3.m00 horth
  have h2 := congrArg Mat3.m01 horth
  have h3 := congrArg Mat3.m02 horth
  have h4 := congrArg Mat3.m10 horth
  have h5 := congrArg Mat3.m11 horth
  have h6 := congrArg Mat3.m12 horth
  have h7 := congrArg Mat3.m20 horth
  have h8 := congrArg Mat3.m21 horth
  have h9 := congrArg Mat3.m22 horth
  simp only [Mat3.mul, Mat3.transpose, Mat3.id] at h1 h2 h3 h4 h5 h6 h7 h8 h9
  rw [hgs_to_hcrs] at hr
  rw [hf] at hr
  simp only [bind, Except.bind, Except.ok.injEq] at hr
  have hrev1 : rev.1 = fwd.1.transpose := by rw [← hr]
  have hrevoff : rev.2 = (match fwd.2.vel with
      | some v => (⟨-fwd.2.pos, some (-v)⟩ : CartOffset)
      | none => ⟨-fwd.2.pos, none⟩).transform fwd.1.transpose := by rw [← hr]
  refine ⟨hrev1, ?_, ?_, ?_, ?_⟩
  · rw [hrevoff]
    cases fwd.2.vel <;> simp [CartOffset.transform]
  · rw [hrevoff]
    cases fwd.2.vel <;> simp [CartOffset.transform, Vec3.neg_def, Mat3.mulVec, Mat3.transpose]
  · intro x
    rw [hrev1, hrevoff]
    have hpos : ((match fwd.2.vel with
        | some v => (⟨-fwd.2.pos, some (-v)⟩ : CartOffset)
        | none => ⟨-fwd.2.pos, none⟩).transform fwd.1.transpose).pos
        = fwd.1.transpose.mulVec (-fwd.2.pos) := by
      cases fwd.2.vel <;> simp [CartOffset.transform]
    rw [hpos]
    obtain ⟨x1, x2, x3⟩ := x
    simp only [Mat3.mulVec, Mat3.transpose, Vec3.add_def, Vec3.neg_def, Vec3.mk.injEq]
    refine ⟨?_, ?_, ?_⟩
    · linear_combination x1 * h1 + x2 * h2 + x3 * h3
    · linear_combination x1 * h4 + x2 * h5 + x3 * h6
    · linear_combination x1 * h7 + x2 * h8 + x3 * h9
  · intro v w w' hw hw'
    rw [hrev1]
    rw [hrevoff] at hw'
    rw [hw] at hw'
    simp only [CartOffset.transform] at hw'
    have hw2 : fwd.1.transpose.mulVec (-w) = w' := by simpa using hw'
    rw [← hw2]
    obtain ⟨v1, v2, v3⟩ := v
    obtain ⟨w1, w2, w3⟩ := w
    simp only [Mat3.mulVec, Mat3.transpose, Vec3.add_def, Vec3.neg_def, Vec3.mk.injEq]
    refine ⟨?_, ?_, ?_⟩
    · linear_combination v1 * h1 + v2 * h2 + v3 * h3
    · linear_combination v1 * h4 + v2 * h5 + v3 * h6
    · linear_combination v1 * h7 + v2 * h8 + v3 * h9

/-- Witness for C7: a concrete 90°-about-Z orthogonal rotation, a constant
solar ephemeris, velocities attached, and differing observation times; the
forward and reverse affine pairs are computed concretely and the inversion
properties hold through the theorem. -/
theorem c7_hgs_to_hcrs_exact_inverse_witness :
    hcrs_to_hgs ⟨0, 1, 0, -1, 0, 0, 0, 0, 1⟩ (fun _ => ⟨1, 2, 3⟩) ⟨1, 0, 0⟩ ⟨0, 1, 0⟩ true
        none (some 1)
      = Except.ok (⟨0, 1, 0, -1, 0, 0, 0, 0, 1⟩, ⟨⟨0, 0, 0⟩, some ⟨-1, -1, 0⟩⟩)
    ∧ hgs_to_hcrs ⟨0, 1, 0, -1, 0, 0, 0, 0, 1⟩ (fun _ => ⟨1, 2, 3⟩) ⟨1, 0, 0⟩ ⟨0, 1, 0⟩ true
        (some 1) none
      = Except.ok (⟨0, -1, 0, 1, 0, 0, 0, 0, 1⟩, ⟨⟨0, 0, 0⟩, some ⟨-1, 1, 0⟩⟩)
    ∧ Mat3.mul (Mat3.transpose ⟨0, 1, 0, -1, 0, 0, 0, 0, 1⟩) ⟨0, 1, 0, -1, 0, 0, 0, 0, 1⟩
      = Mat3.id
    ∧ ((⟨0, -1, 0, 1, 0, 0, 0, 0, 1⟩ : Mat3) = Mat3.transpose ⟨0, 1, 0, -1, 0, 0, 0, 0, 1⟩
        ∧ (⟨0, 0, 0⟩ : Vec3)
            = (Mat3.transpose ⟨0, 1, 0, -1, 0, 0, 0, 0, 1⟩).mulVec (-(⟨0, 0, 0⟩ : Vec3))
        ∧ (some (⟨-1, 1, 0⟩ : Vec3)) = (some (⟨-1, -1, 0⟩ : Vec3)).map
            (fun v => (Mat3.transpose ⟨0, 1, 0, -1, 0, 0, 0, 0, 1⟩).mulVec (-v))
        ∧ (∀ x : Vec3,
            (⟨0, -1, 0, 1, 0, 0, 0, 0, 1⟩ : Mat3).mulVec
                ((⟨0, 1, 0, -1, 0, 0, 0, 0, 1⟩ : Mat3).mulVec x + ⟨0, 0, 0⟩) + ⟨0, 0, 0⟩ = x)
        ∧ (∀ v w w' : Vec3, (some (⟨-1, -1, 0⟩ : Vec3)) = some w
            → (some (⟨-1, 1, 0⟩ : Vec3)) = some w'
            → (⟨0, -1, 0, 1, 0, 0, 0, 0, 1⟩ : Mat3).mulVec
                ((⟨0, 1, 0, -1, 0, 0, 0, 0, 1⟩ : Mat3).mulVec v + w) + w' = v)) := by
  have hf : hcrs_to_hgs ⟨0, 1, 0, -1, 0, 0, 0, 0, 1⟩ (fun _ => ⟨1, 2, 3⟩) ⟨1, 0, 0⟩ ⟨0, 1, 0⟩
      true none (some 1)
      = Except.ok (⟨0, 1, 0, -1, 0, 0, 0, 0, 1⟩, ⟨⟨0, 0, 0⟩, some ⟨-1, -1, 0⟩⟩) := by
    rw [hcrs_to_hgs, if_neg (by simp : ¬((some (1 : ℚ) : Option ℚ) = none))]
    norm_num [CartOffset.transform, Mat3.mulVec, Vec3.sub_def, Vec3.zero]
  have hr : hgs_to_hcrs ⟨0, 1, 0, -1, 0, 0, 0, 0, 1⟩ (fun _ => ⟨1, 2, 3⟩) ⟨1, 0, 0⟩ ⟨0, 1, 0⟩
      true (some 1) none
      = Except.ok (⟨0, -1, 0, 1, 0, 0, 0, 0, 1⟩, ⟨⟨0, 0, 0⟩, some ⟨-1, 1, 0⟩⟩) := by
    rw [hgs_to_hcrs, hf]
    simp only [bind, Except.bind, CartOffset.transform, Mat3.transpose, Mat3.mulVec,
      Vec3.neg_def, Option.map]
    norm_num
  have horth : Mat3.mul (Mat3.transpose ⟨0, 1, 0, -1, 0, 0, 0, 0, 1⟩)
      ⟨0, 1, 0, -1, 0, 0, 0, 0, 1⟩ = Mat3.id := by
    simp only [Mat3.mul, Mat3.transpose, Mat3.id]
    norm_num
  exact ⟨hf, hr, horth,
    c7_hgs_to_hcrs_exact_inverse ⟨0, 1, 0, -1, 0, 0, 0, 0, 1⟩ (fun _ => ⟨1, 2, 3⟩)
      ⟨1, 0, 0⟩ ⟨0, 1, 0⟩ true none (some 1)
      (⟨0, 1, 0, -1, 0, 0, 0, 0, 1⟩, ⟨⟨0, 0, 0⟩, some ⟨-1, -1, 0⟩⟩)
      (⟨0, -1, 0, 1, 0, 0, 0, 0, 1⟩, ⟨⟨0, 0, 0⟩, some ⟨-1, 1, 0⟩⟩) hf hr horth⟩

/-!
## Heliographic Stonyhurst ↔ Carrington (lines 104-148) and
## Helioprojective ↔ Heliocentric (lines 151-215)
-/

/-- Lines 104-116: `_rotation_matrix_hgs_to_hgc(obstime)`.  Raises a
`ValueError` ("the coordinate Frame needs an obstime Attribute", spec kind
`MissingAttributeError`) when the obstime is unset; otherwise the rotation is
only in longitude, `rotation_matrix(-L0(obstime), 'z')`.  The Carrington
longitude `L0` (from `.sun`, not under `src/`) and astropy's named-axis
`rotation_matrix` (closed-form trigonometry about Z) are collaborators and
enter as parameters. -/
def _rotation_matrix_hgs_to_hgc (rotZ : ℚ → Mat3) (L0 : ℚ → ℚ) (obstime : Option ℚ) :
    Except SunpyError Mat3 :=
  match obstime with
  | none => Except.error SunpyError.missingAttribute
  | some t => Except.ok (rotZ (-L0 t))

/-- Lines 119-132: `hgs_to_hgc` first retimes the HGS coordinate to the HGC
obstime via `_transform_obstime`, then rotates its Cartesian data by
`_rotation_matrix_hgs_to_hgc` evaluated at the retimed coordinate's obstime,
and realizes the HGC frame with the rotated Cartesian data. -/
def hgs_to_hgc (loopback : TimeCoord → TimeCoord → TimeCoord) (rotZ : ℚ → Mat3)
    (L0 : ℚ → ℚ) (sphToCart : ℚ → ℚ → ℚ → Vec3) (unitSphToCart : ℚ → ℚ → Vec3)
    (hgscoord : TimeCoord) (hgcframe : TimeFrameT) : Except SunpyError TimeCoord := do
  let int_coord := _transform_obstime loopback hgscoord hgcframe.obstime
  let total_matrix ← _rotation_matrix_hgs_to_hgc rotZ L0 int_coord.obstime
  let newrepr := total_matrix.mulVec (int_coord.data.toCartesian sphToCart unitSphToCart)
  return hgcframe.realize (PyRepr.cart newrepr)

/-- Lines 135-148: `hgc_to_hgs`, the reverse of `hgs_to_hgc`: retime to the
HGS obstime, rotate by the transpose of `_rotation_matrix_hgs_to_hgc`. -/
def hgc_to_hgs (loopback : TimeCoord → TimeCoord → TimeCoord) (rotZ : ℚ → Mat3)
    (L0 : ℚ → ℚ) (sphToCart : ℚ → ℚ → ℚ → Vec3) (unitSphToCart : ℚ → ℚ → Vec3)
    (hgccoord : TimeCoord) (hgsframe : TimeFrameT) : Except SunpyError TimeCoord := do
  let int_coord := _transform_obstime loopback hgccoord hgsframe.obstime
  let fwd_matrix ← _rotation_matrix_hgs_to_hgc rotZ L0 int_coord.obstime
  let total_matrix := fwd_matrix.transpose
  let newrepr := total_matrix.mulVec (int_coord.data.toCartesian sphToCart unitSphToCart)
  return hgsframe.realize (PyRepr.cart newrepr)

/-- Lines 151-161: `_matrix_hcc_to_hpc()`, the fixed axis permutation from HCC
to the HPC equivalent Cartesian axes: HPC_X = -HCC_Z, HPC_Y = HCC_X,
HPC_Z = HCC_Y. -/
def _matrix_hcc_to_hpc : Mat3 := ⟨0, 0, -1, 1, 0, 0, 0, 1, 0⟩

/-- Modelled from the spec: `Helioprojective.calculate_distance` lives in
`frames.py`, which is not under `src/`.  Spec §4.4d: "The reverse direction
requires the coordinate to carry a resolved distance value; if the input
carries only angular (no-distance) data, this is a hard error", and §7 defines
`MissingDistanceError` as "angular-only data cannot be converted to Cartesian
without a resolved radial distance".  So angular-only (`UnitSpherical`) data
raises `MissingDistanceError`, and data already carrying a distance is
returned unchanged (attributes untouched). -/
def calculate_distance (c : ObsCoord) : Except SunpyError ObsCoord :=
  match c.data with
  | PyRepr.unitSph _ _ => Except.error SunpyError.missingDistanceError
  | _ => Except.ok c

/-- Lines 188-215: `hpc_to_hcc`.  If the HPC coordinate's observer is not a
resolved frame, a `ConvertError` is raised; then the coordinate's distance is
resolved (`calculate_distance`), the data is permuted from HPC equivalent
Cartesian to HCC by the transpose of `_matrix_hcc_to_hpc`, the observer is
retimed to the coordinate's obstime, the origin is shifted from the observer
to the Sun by adding `(0, 0, observer.radius)`, and the intermediate HCC
coordinate (at the HPC coordinate's obstime and observer) is loopback
transformed to the destination frame via `hcc_to_hcc`.  (The source rebinds
`heliopcoord` to the `calculate_distance` result, which leaves the observer
attribute unchanged, so the retimed observer is built from the original
observer frame.) -/
def hpc_to_hcc (obsLoopback : ObserverFrame → ObserverFrame → ObserverFrame)
    (pivot : ObsCoord → ObsFrameT → Except SunpyError ObsCoord)
    (allclose : ℚ → ℚ → Bool)
    (sphToCart : ℚ → ℚ → ℚ → Vec3) (unitSphToCart : ℚ → ℚ → Vec3)
    (heliopcoord : ObsCoord) (heliocframe : ObsFrameT) : Except SunpyError ObsCoord := do
  match heliopcoord.observer with
  | PyObserver.str s => throw (SunpyError.convertError s)
  | PyObserver.frame obsF => do
    let hp ← calculate_distance heliopcoord
    let newrepr := _matrix_hcc_to_hpc.transpose.mulVec
      (hp.data.toCartesian sphToCart unitSphToCart)
    let observer := _transform_obstime_observer obsLoopback obsF hp.obstime
    let newrepr2 := newrepr + (⟨0, 0, observer.radius⟩ : Vec3)
    let int_coord : ObsCoord := ⟨hp.obstime, PyObserver.frame observer, PyRepr.cart newrepr2⟩
    hcc_to_hcc pivot allclose int_coord heliocframe

/-- C4 (confirmed; the distance part is spec-modelled because
`calculate_distance` is not under `src/`): the Helioprojective→Heliocentric
conversion on a coordinate whose data carries no resolved distance
(angular-only `UnitSpherical` data, with a resolved observer frame so the
earlier unresolved-observer check passes) raises `MissingDistanceError`; and
every HGS-based transform — the HGS↔HGC rotation kernel, `hgs_to_hgc`,
`hgc_to_hgs` and both directions of HCRS↔HGS — raises the
missing-obstime `ValueError` (spec kind `MissingAttributeError`) when the
governing obstime is `None`.  In each case the result is an `Except.error`,
so no partial result is returned. -/
theorem c4_error_taxonomy (obsLoopback : ObserverFrame → ObserverFrame → ObserverFrame)
    (pivot : ObsCoord → ObsFrameT → Except SunpyError ObsCoord)
    (allclose : ℚ → ℚ → Bool)
    (sphToCart : ℚ → ℚ → ℚ → Vec3) (unitSphToCart : ℚ → ℚ → Vec3)
    (loopback : TimeCoord → TimeCoord → TimeCoord) (rotZ : ℚ → Mat3) (L0 : ℚ → ℚ)
    (t : Option ℚ) (f : ObserverFrame) (lon lat : ℚ) (hcf : ObsFrameT) (d : PyRepr) :
    hpc_to_hcc obsLoopback pivot allclose sphToCart unitSphToCart
        ⟨t, PyObserver.frame f, PyRepr.unitSph lon lat⟩ hcf
      = Except.error SunpyError.missingDistanceError
    ∧ _rotation_matrix_hgs_to_hgc rotZ L0 none = Except.error SunpyError.missingAttribute
    ∧ hgs_to_hgc loopback rotZ L0 sphToCart unitSphToCart ⟨none, d⟩ ⟨none⟩
      = Except.error SunpyError.missingAttribute
    ∧ hgc_to_hgs loopback rotZ L0 sphToCart unitSphToCart ⟨none, d⟩ ⟨none⟩
      = Except.error SunpyError.missingAttribute
    ∧ (∀ (total_matrix : Mat3) (sun_pos : Option ℚ → Vec3) (sun_vel earth_vel : Vec3)
        (has_differentials : Bool) (t1 : Option ℚ),
        hcrs_to_hgs total_matrix sun_pos sun_vel earth_vel has_differentials t1 none
          = Except.error SunpyError.missingAttribute)
    ∧ (∀ (total_matrix : Mat3) (sun_pos : Option ℚ → Vec3) (sun_vel earth_vel : Vec3)
        (has_differentials : Bool) (t1 : Option ℚ),
        hgs_to_hcrs total_matrix sun_pos sun_vel earth_vel has_differentials none t1
          = Except.error SunpyError.missingAttribute) := by
  refine ⟨?_, rfl, ?_, ?_, fun _ _ _ _ _ _ => rfl, fun _ _ _ _ _ _ => by
    simp [hgs_to_hcrs, hcrs_to_hgs, bind, Except.bind]⟩
  · simp [hpc_to_hcc, calculate_distance, bind, Except.bind]
  · simp [hgs_to_hgc, _transform_obstime, _rotation_matrix_hgs_to_hgc, bind, Except.bind]
  · simp [hgc_to_hgs, _transform_obstime, _rotation_matrix_hgs_to_hgc, bind, Except.bind]

/-- Witness for C4: the error conjunction evaluated at concrete collaborators
and inputs (a resolved observer at obstime 1 with angular-only data for the
distance error; unset obstimes everywhere else). -/
theorem c4_error_taxonomy_witness :
    hpc_to_hcc (fun a _ => a) (fun c _ => Except.ok c) (fun a b => a == b)
        (fun a b c => ⟨a, b, c⟩) (fun a b => ⟨a, b, 0⟩)
        ⟨some 1, PyObserver.frame ⟨0, 0, 1, some 1⟩, PyRepr.unitSph 2 3⟩
        ⟨some 1, PyObserver.frame ⟨0, 0, 1, some 1⟩⟩
      = Except.error SunpyError.missingDistanceError
    ∧ _rotation_matrix_hgs_to_hgc (fun _ => Mat3.id) (fun t => t) none
      = Except.error SunpyError.missingAttribute
    ∧ hgs_to_hgc (fun c _ => c) (fun _ => Mat3.id) (fun t => t)
        (fun a b c => ⟨a, b, c⟩) (fun a b => ⟨a, b, 0⟩) ⟨none, PyRepr.cart ⟨1, 2, 3⟩⟩ ⟨none⟩
      = Except.error SunpyError.missingAttribute
    ∧ hgc_to_hgs (fun c _ => c) (fun _ => Mat3.id) (fun t => t)
        (fun a b c => ⟨a, b, c⟩) (fun a b => ⟨a, b, 0⟩) ⟨none, PyRepr.cart ⟨1, 2, 3⟩⟩ ⟨none⟩
      = Except.error SunpyError.missingAttribute
    ∧ (∀ (total_matrix : Mat3) (sun_pos : Option ℚ → Vec3) (sun_vel earth_vel : Vec3)
        (has_differentials : Bool) (t1 : Option ℚ),
        hcrs_to_hgs total_matrix sun_pos sun_vel earth_vel has_differentials t1 none
          = Except.error SunpyError.missingAttribute)
    ∧ (∀ (total_matrix : Mat3) (sun_pos : Option ℚ → Vec3) (sun_vel earth_vel : Vec3)
        (has_differentials : Bool) (t1 : Option ℚ),
        hgs_to_hcrs total_matrix sun_pos sun_vel earth_vel has_differentials none t1
          = Except.error SunpyError.missingAttribute) :=
  c4_error_taxonomy (fun a _ => a) (fun c _ => Except.ok c) (fun a b => a == b)
    (fun a b c => ⟨a, b, c⟩) (fun a b => ⟨a, b, 0⟩) (fun c _ => c) (fun _ => Mat3.id)
    (fun t => t) (some 1) ⟨0, 0, 1, some 1⟩ 2 3 ⟨some 1, PyObserver.frame ⟨0, 0, 1, some 1⟩⟩
    (PyRepr.cart ⟨1, 2, 3⟩)

/-- Lines 164-185: `hcc_to_hpc`.  The HPC frame's observer is retimed to the
HPC obstime (`_transform_obstime` on the observer sub-frame; a string observer
has no `obstime` attribute, so Python would raise an `AttributeError` there);
the HCC coordinate is loopback transformed to an intermediate Heliocentric
frame at the HPC obstime and retimed observer (`hcc_to_hcc`); the origin is
shifted from the Sun to the observer by subtracting `(0, 0, observer.radius)`;
the axes are permuted by `_matrix_hcc_to_hpc`; and — decisive for C10 — the
result is explicitly represented as spherical
(`newrepr.represent_as(SphericalRepresentation)`, the Cartesian-to-spherical
conversion being the external collaborator `cartToSph`) before realizing the
destination frame. -/
def hcc_to_hpc (obsLoopback : ObserverFrame → ObserverFrame → ObserverFrame)
    (pivot : ObsCoord → ObsFrameT → Except SunpyError ObsCoord)
    (allclose : ℚ → ℚ → Bool)
    (sphToCart : ℚ → ℚ → ℚ → Vec3) (unitSphToCart : ℚ → ℚ → Vec3)
    (cartToSph : Vec3 → ℚ × ℚ × ℚ)
    (helioccoord : ObsCoord) (heliopframe : ObsFrameT) : Except SunpyError ObsCoord := do
  let observer ← match heliopframe.observer with
    | PyObserver.str s => throw (SunpyError.attributeError s)
    | PyObserver.frame f => pure (_transform_obstime_observer obsLoopback f heliopframe.obstime)
  let int_frame : ObsFrameT := ⟨heliopframe.obstime, PyObserver.frame observer⟩
  let int_coord ← hcc_to_hcc pivot allclose helioccoord int_frame
  let distance ← match int_coord.observer with
    | PyObserver.str s => throw (SunpyError.attributeError s)
    | PyObserver.frame f2 => pure f2.radius
  let newrepr := (int_coord.data.toCartesian sphToCart unitSphToCart)
    - (⟨0, 0, distance⟩ : Vec3)
  let newrepr2 := _matrix_hcc_to_hpc.mulVec newrepr
  let sphvals := cartToSph newrepr2
  return heliopframe.realize (PyRepr.sph sphvals.1 sphvals.2.1 sphvals.2.2)

/-- C10 (confirmed): whenever the Heliocentric→Helioprojective transform
returns a coordinate, that coordinate's data is explicitly in spherical
representation, regardless of the representation of the input data — the
function ends with `represent_as(SphericalRepresentation)`. -/
theorem c10_hcc_to_hpc_returns_spherical
    (obsLoopback : ObserverFrame → ObserverFrame → ObserverFrame)
    (pivot : ObsCoord → ObsFrameT → Except SunpyError ObsCoord)
    (allclose : ℚ → ℚ → Bool)
    (sphToCart : ℚ → ℚ → ℚ → Vec3) (unitSphToCart : ℚ → ℚ → Vec3)
    (cartToSph : Vec3 → ℚ × ℚ × ℚ)
    (c out : ObsCoord) (f : ObsFrameT)
    (h : hcc_to_hpc obsLoopback pivot allclose sphToCart unitSphToCart cartToSph c f
      = Except.ok out) :
    ∃ lon lat dist, out.data = PyRepr.sph lon lat dist := by
  unfold hcc_to_hpc at h
  cases hobs : f.observer with
  | str s =>
    rw [hobs] at h
    simp [bind, Except.bind, throw, throwThe, MonadExceptOf.throw] at h
  | frame fo =>
    rw [hobs] at h
    simp only [bind, Except.bind, pure, Except.pure] at h
    cases hint : hcc_to_hcc pivot allclose c
        ⟨f.obstime, PyObserver.frame (_transform_obstime_observer obsLoopback fo f.obstime)⟩ with
    | error e =>
      rw [hint] at h
      simp at h
    | ok ic =>
      rw [hint] at h
      cases hio : ic.observer with
      | str s =>
        simp only [hio] at h
        exact absurd h (by simp)
      | frame f2 =>
        simp only [hio, Except.ok.injEq] at h
        subst h
        exact ⟨_, _, _, rfl⟩

/-- Witness for C10: a concrete successful run (Cartesian input data, matching
observers and times) computed end to end; the output carries spherical data,
obtained through the theorem. -/
theorem c10_hcc_to_hpc_returns_spherical_witness :
    hcc_to_hpc (fun a _ => a) (fun c _ => Except.ok c) (fun a b => a == b)
        (fun a b c => ⟨a, b, c⟩) (fun a b => ⟨a, b, 0⟩) (fun v => (v.x, v.y, v.z))
        ⟨some 1, PyObserver.frame ⟨0, 0, 1, some 1⟩, PyRepr.cart ⟨1, 2, 3⟩⟩
        ⟨some 1, PyObserver.frame ⟨0, 0, 1, some 1⟩⟩
      = Except.ok ⟨some 1, PyObserver.frame ⟨0, 0, 1, some 1⟩, PyRepr.sph (-2) 1 2⟩
    ∧ (∃ lon lat dist,
        (⟨some 1, PyObserver.frame ⟨0, 0, 1, some 1⟩, PyRepr.sph (-2) 1 2⟩ : ObsCoord).data
          = PyRepr.sph lon lat dist) := by
  have h : hcc_to_hpc (fun a _ => a) (fun c _ => Except.ok c) (fun a b => a == b)
      (fun a b c => ⟨a, b, c⟩) (fun a b => ⟨a, b, 0⟩) (fun v => (v.x, v.y, v.z))
      ⟨some 1, PyObserver.frame ⟨0, 0, 1, some 1⟩, PyRepr.cart ⟨1, 2, 3⟩⟩
      ⟨some 1, PyObserver.frame ⟨0, 0, 1, some 1⟩⟩
      = Except.ok ⟨some 1, PyObserver.frame ⟨0, 0, 1, some 1⟩, PyRepr.sph (-2) 1 2⟩ := by
    simp only [hcc_to_hpc, hcc_to_hcc, _observers_are_equal, pyObserverEq,
      _transform_obstime_observer, _matrix_hcc_to_hpc, Mat3.mulVec, PyRepr.toCartesian,
      Vec3.sub_def, ObsFrameT.realize, bind, Except.bind, pure, Except.pure,
      beq_self_eq_true, Bool.false_and, Bool.and_self, if_true, if_false]
    norm_num
  exact ⟨h, c10_hcc_to_hpc_returns_spherical (fun a _ => a) (fun c _ => Except.ok c)
    (fun a b => a == b) (fun a b c => ⟨a, b, c⟩) (fun a b => ⟨a, b, 0⟩)
    (fun v => (v.x, v.y, v.z))
    ⟨some 1, PyObserver.frame ⟨0, 0, 1, some 1⟩, PyRepr.cart ⟨1, 2, 3⟩⟩
    ⟨some 1, PyObserver.frame ⟨0, 0, 1, some 1⟩, PyRepr.sph (-2) 1 2⟩
    ⟨some 1, PyObserver.frame ⟨0, 0, 1, some 1⟩⟩ h⟩

/-!
## Ecliptic-family transforms: HME ↔ GEI (lines 687-731) and HEE → GSE
(lines 554-575)
-/

/-- Lines 687-707: `hme_to_gei`.  The HME coordinate is converted through HCRS
to an intermediate HME frame with J2000.0 equinox at the GEI obstime (external
astropy graph composition, parameter `hcrsChain`, yielding the intermediate
Cartesian data); the Sun-Earth vector expressed in that intermediate frame is
the ephemeris composite `sun_earth_int`; the Earth-object vector is rotated
from ecliptic to Earth equatorial by `rotation_matrix(-_OBLIQUITY_J2000, 'x')`
(named-axis astropy collaborator `rotX`, obliquity constant `obliquity`). -/
def hme_to_gei (hcrsChain : TimeCoord → Option ℚ → Vec3)
    (sun_earth_int : Option ℚ → Vec3) (rotX : ℚ → Mat3) (obliquity : ℚ)
    (hmecoord : TimeCoord) (geiframe : TimeFrameT) : TimeCoord :=
  let int_data := hcrsChain hmecoord geiframe.obstime
  let sun_earth := sun_earth_int geiframe.obstime
  let earth_object := int_data - sun_earth
  let newrepr := (rotX (-obliquity)).mulVec earth_object
  geiframe.realize (PyRepr.cart newrepr)

/-- Lines 710-731: `gei_to_hme`.  After constructing the intermediate frame
and computing the Sun-Earth vector in it, line 724 reads
`earth_object_int = gsecoord.transform(rotation_matrix(_OBLIQUITY_J2000, 'x'))`
— but no variable named `gsecoord` is bound anywhere in this function (its
parameter is `geicoord`; the name is copied from `gse_to_hee`), so CPython
raises a `NameError` at that line on every call, before any result is
produced.  The embedding evaluates the preceding statements and then raises. -/
def gei_to_hme (sun_earth_int : Option ℚ → Vec3)
    (geicoord : TimeCoord) (hmeframe : TimeFrameT) : Except SunpyError TimeCoord :=
  let _int_frame : TimeFrameT := ⟨geicoord.obstime⟩
  let _sun_earth := sun_earth_int geicoord.obstime
  Except.error (SunpyError.nameError "gsecoord")

/-- The A→B→A composition for the (HME, GEI) pair: `hme_to_gei` followed by
`gei_to_hme`, with the same collaborators throughout. -/
def hme_gei_roundtrip (hcrsChain : TimeCoord → Option ℚ → Vec3)
    (sun_earth_int : Option ℚ → Vec3) (rotX : ℚ → Mat3) (obliquity : ℚ)
    (hmecoord : TimeCoord) (geiframe hmeframe : TimeFrameT) :
    Except SunpyError TimeCoord :=
  gei_to_hme sun_earth_int
    (hme_to_gei hcrsChain sun_earth_int rotX obliquity hmecoord geiframe) hmeframe

/-- C1: refuted as stated; the code is the bug.  The round-trip identity
cannot hold for the registered pair (HME, GEI): the second leg `gei_to_hme`
reads the unbound variable `gsecoord` (line 724 of the source, a copy-paste
from `gse_to_hee` instead of `geicoord.cartesian`), so for every input
coordinate, observer/time configuration and ephemeris, the A→B→A composition
raises `NameError` and never returns the original vector (to any tolerance). -/
theorem c1_hme_gei_roundtrip_raises (hcrsChain : TimeCoord → Option ℚ → Vec3)
    (sun_earth_int : Option ℚ → Vec3) (rotX : ℚ → Mat3) (obliquity : ℚ)
    (hmecoord : TimeCoord) (geiframe hmeframe : TimeFrameT) :
    hme_gei_roundtrip hcrsChain sun_earth_int rotX obliquity hmecoord geiframe hmeframe
      = Except.error (SunpyError.nameError "gsecoord")
    ∧ ∀ out : TimeCoord,
        hme_gei_roundtrip hcrsChain sun_earth_int rotX obliquity hmecoord geiframe hmeframe
          ≠ Except.ok out := by
  exact ⟨rfl, fun out h => by simp [hme_gei_roundtrip, gei_to_hme] at h⟩

/-- Lines 554-575: `hee_to_gse`.  The HEE coordinate is first transformed to
an intermediate HEE frame at the GSE obstime (the registered `hee_to_hee`
loopback); the Sun-Earth vector in the intermediate frame is the ephemeris
composite `sun_earth_int`; the Earth-object vector is the coordinate minus the
Sun-Earth vector; finally X and Y are flipped and Z left untouched. -/
def hee_to_gse (heeLoopback : TimeCoord → TimeFrameT → TimeCoord)
    (sun_earth_int : Option ℚ → Vec3)
    (sphToCart : ℚ → ℚ → ℚ → Vec3) (unitSphToCart : ℚ → ℚ → Vec3)
    (heecoord : TimeCoord) (gseframe : TimeFrameT) : TimeCoord :=
  let int_frame : TimeFrameT := ⟨gseframe.obstime⟩
  let int_coord := hee_to_hee heeLoopback heecoord int_frame
  let sun_earth := sun_earth_int int_frame.obstime
  let earth_object := (int_coord.data.toCartesian sphToCart unitSphToCart) - sun_earth
  let newrepr : Vec3 := ⟨-earth_object.x, -earth_object.y, earth_object.z⟩
  gseframe.realize (PyRepr.cart newrepr)

/-- C8 counterexample: with the representative Sun→Earth vector (1 AU, 0, 0)
in the intermediate HEE frame (the true ephemeris value at any epoch has
X ≈ 1 AU ≠ 0; by construction of the HEE frame the Sun-Earth vector lies on
its +X axis), the fixed example vector (1 AU, 0, 0) in HEE at the same
obstime transforms to (0, 0, 0) in GSE — not to (-1 AU, 0, 0), the exact
negative of the HEE X value that the claim asserts. -/
theorem c8_gse_not_negated_hee_counterexample :
    hee_to_gse (fun c _ => c) (fun _ => ⟨1, 0, 0⟩) (fun a b c => ⟨a, b, c⟩)
        (fun a b => ⟨a, b, 0⟩) ⟨some 0, PyRepr.cart ⟨1, 0, 0⟩⟩ ⟨some 0⟩
      = ⟨some 0, PyRepr.cart ⟨0, 0, 0⟩⟩
    ∧ hee_to_gse (fun c _ => c) (fun _ => ⟨1, 0, 0⟩) (fun a b c => ⟨a, b, c⟩)
        (fun a b => ⟨a, b, 0⟩) ⟨some 0, PyRepr.cart ⟨1, 0, 0⟩⟩ ⟨some 0⟩
      ≠ ⟨some 0, PyRepr.cart ⟨-1, 0, 0⟩⟩ := by
  have h : hee_to_gse (fun c _ => c) (fun _ => ⟨1, 0, 0⟩) (fun a b c => ⟨a, b, c⟩)
      (fun a b => ⟨a, b, 0⟩) ⟨some 0, PyRepr.cart ⟨1, 0, 0⟩⟩ ⟨some 0⟩
      = ⟨some 0, PyRepr.cart ⟨0, 0, 0⟩⟩ := by
    simp only [hee_to_gse, hee_to_hee, TimeFrameT.realize, PyRepr.toCartesian, Vec3.sub_def]
    norm_num
  refine ⟨h, ?_⟩
  rw [h]
  intro hc
  have hd := congrArg TimeCoord.data hc
  simp only [PyRepr.cart.injEq, Vec3.mk.injEq] at hd
  exact absurd hd.1 (by norm_num)

/-- C8 (amended): at matching observation times, the GSE output of
`hee_to_gse` is the Earth-relative vector — the HEE value minus the Sun→Earth
vector of the intermediate frame — with its X and Y components exactly
negated and its Z component unchanged. -/
theorem c8_gse_is_negated_earth_relative (heeLoopback : TimeCoord → TimeFrameT → TimeCoord)
    (sun_earth_int : Option ℚ → Vec3) (sphToCart : ℚ → ℚ → ℚ → Vec3)
    (unitSphToCart : ℚ → ℚ → Vec3) (v : Vec3) (t : Option ℚ) :
    hee_to_gse heeLoopback sun_earth_int sphToCart unitSphToCart ⟨t, PyRepr.cart v⟩ ⟨t⟩
      = ⟨t, PyRepr.cart ⟨-(v.x - (sun_earth_int t).x), -(v.y - (sun_earth_int t).y),
          v.z - (sun_earth_int t).z⟩⟩ := by
  unfold hee_to_gse hee_to_hee
  simp [TimeFrameT.realize, PyRepr.toCartesian, Vec3.sub_def]

/-!
## Graph assembly and pruning (lines 746-866 of the source)

The live transformation graph is abstracted to its node names (astropy's
`_cached_names`) and directed edges (the nested `_graph` dict, flattened to
name pairs).  `_make_sunpy_graph` is an effectful function of the process-wide
`frame_transform_graph` variable; its embedding returns the trace of that
variable: the value it holds while the docstring is generated (`mid`) and the
value it holds afterwards (`final`), together with the returned docstring.
-/

structure TGraph where
  names : List String
  edges : List (String × String)
deriving DecidableEq

/-- Lines 751-757: the frame names kept in the documentation graph. -/
def keep_list : List String :=
  ["icrs", "hcrs", "heliocentrictrueecliptic", "heliocentricmeanecliptic",
   "heliographic_stonyhurst", "heliographic_carrington",
   "heliocentric", "helioprojective",
   "heliocentricearthecliptic", "geocentricsolarecliptic",
   "heliocentricinertial", "geocentricearthequatorial",
   "gcrs", "precessedgeocentric", "geocentrictrueecliptic", "geocentricmeanecliptic",
   "cirs", "altaz", "itrs"]

/-- Lines 766-774: removing one unwanted frame from the (copied) graph —
drop the part of the graph where it is the source frame, and every instance of
it as the destination frame.  The node list is cleaned up separately. -/
def removeFrame (g : TGraph) (f : String) : TGraph :=
  ⟨g.names, g.edges.filter (fun e => (e.1 != f) && (e.2 != f))⟩

/-- Lines 796-808: `_add_astropy_node` registers fake transforms between a
synthetic frame (whose class-level name is "REPLACE") and ICRS on the given
graph, adding the node and the two edges. -/
def _add_astropy_node (g : TGraph) : TGraph :=
  ⟨g.names ++ ["REPLACE"], g.edges ++ [("REPLACE", "icrs"), ("icrs", "REPLACE")]⟩

/-- Lines 855-865: `_add_legend_row(label, color)`. -/
def _add_legend_row (label color : String) : String :=
  "        <li style=\"list-style: none;\">\n" ++
  "            <p style=\"font-size: 12px;line-height: 24px;font-weight: normal;" ++
  "color: #848484;padding: 0;margin: 0;\">\n" ++
  "                <b>" ++ label ++ ":</b>\n" ++
  "                    <span class=\"dot\" style=\"height: 20px;width: 40px;" ++
  "background-color: " ++ color ++ ";border-radius: 50%;border: 1px solid black;" ++
  "display: inline-block;\"></span>\n" ++
  "            </p>\n" ++
  "        </li>\n\n\n"

/-- Python `s[s.find(marker):]`: everything from the first occurrence of the
marker on; when the marker is absent, `str.find` returns -1 and the slice
`s[-1:]` is the last character. -/
def pyFindSlice (s marker : String) : String :=
  match s.splitOn marker with
  | [] => s
  | [_] => s.drop (s.length - 1)
  | _ :: rest => marker ++ String.intercalate marker rest

/-- Lines 833-836: the SunPy frame node names recolored in the diagram. -/
def sunpy_frames : List String :=
  ["HeliographicStonyhurst", "HeliographicCarrington",
   "Heliocentric", "Helioprojective",
   "HeliocentricEarthEcliptic", "GeocentricSolarEcliptic",
   "HeliocentricInertial", "GeocentricEarthEquatorial"]

/-- Lines 812-852: `_tweak_graph(docstr)`, cosmetic string rewriting of the
generated graph description (Python `str.replace` replaces every occurrence,
as does `String.replace`). -/
def _tweak_graph (docstr : String) : String :=
  let output := pyFindSlice docstr ".. Wrap the graph"
  let output := output.replace "Astropy [shape=oval label=\"Astropy\\n`REPLACE`\"]"
    ("Astropy [shape=box3d style=filled fillcolor=lightcyan " ++
     "label=\"Other frames\\nin Astropy\"]")
  let output := output.replace "ICRS -> Astropy[  color = \"#783001\" ]"
    "ICRS -> Astropy[  color = \"#000000\" ]"
  let output := output.replace "Astropy -> ICRS[  color = \"#783001\" ]"
    "Astropy -> ICRS[  color = \"#000000\" ]"
  let output := output.replace "AstropyCoordinateTransformGraph \x7b"
    "AstropyCoordinateTransformGraph \x7b\n        node [style=filled fillcolor=lightcyan]"
  let output := sunpy_frames.foldl
    (fun acc frame => acc.replace (frame ++ " [") (frame ++ " [fillcolor=white ")) output
  let output := output.replace "        overlap=false"
    "        overlap=false\n        rankdir=LR\n        \x7brank=same; ICRS; HCRS; Astropy\x7d"
  let output := output.replace "<ul>\n\n"
    ("<ul>\n\n" ++ _add_legend_row "SunPy frames" "white" ++
     _add_legend_row "Astropy frames" "lightcyan")
  output

/-- The two successive values taken by the process-wide graph variable during
`_make_sunpy_graph`, and the returned docstring. -/
structure GraphRun where
  mid : TGraph
  final : TGraph
  docstr : String
deriving DecidableEq

/-- Lines 746-793: `_make_sunpy_graph`.  Two deep copies of the live graph are
taken (`backup_graph` and `small_graph`); every frame whose name is not in
`keep_list` is culled from the copy (removed as a source frame, removed
everywhere as a destination frame, and popped from the cached name list); the
synthetic Astropy node is added; then the process-wide
`frame_transform_graph` is overwritten with the pruned copy
(`frame_transform_graph = small_graph`), the docstring is generated from the
live variable by the external `make_transform_graph_docs` collaborator
(`makeDocs`), the variable is restored to the deep-copied backup
(`frame_transform_graph = backup_graph`), and the docstring is tweaked.  The
embedding returns the trace of the process-wide variable (`mid` during
docstring generation, `final` afterwards) along with the docstring. -/
def _make_sunpy_graph (makeDocs : TGraph → String) (g : TGraph) : GraphRun :=
  let backup_graph := g
  let small_graph := g
  let cull_list := small_graph.names.filter (fun n => !keep_list.contains n)
  let small_graph := cull_list.foldl removeFrame small_graph
  let small_graph : TGraph :=
    ⟨small_graph.names.filter (fun n => !cull_list.contains n), small_graph.edges⟩
  let small_graph := _add_astropy_node small_graph
  let docstr := makeDocs small_graph
  let docstr := _tweak_graph docstr
  ⟨small_graph, backup_graph, docstr⟩

/-- Helper: culling edges frame by frame never touches the node list. -/
theorem removeFrame_foldl_names (l : List String) (g : TGraph) :
    (l.foldl removeFrame g).names = g.names := by
  induction l generalizing g with
  | nil => rfl
  | cons a l ih =>
    rw [List.foldl_cons, ih]
    rfl

/-- C9 counterexample: with a live graph holding the real frame "galactic"
(present in astropy's graph and absent from `keep_list`), the process-wide
graph observed while the docstring is generated is not the full graph —
during the operation, steady-state lookups see the pruned copy, contradicting
"at every point during and after the operation, steady-state transform
lookups observe the full graph unchanged". -/
theorem c9_live_graph_swapped_counterexample :
    (_make_sunpy_graph (fun _ => "")
        ⟨["icrs", "hcrs", "galactic"],
         [("icrs", "galactic"), ("galactic", "icrs"), ("icrs", "hcrs"), ("hcrs", "icrs")]⟩).mid
      ≠ ⟨["icrs", "hcrs", "galactic"],
         [("icrs", "galactic"), ("galactic", "icrs"), ("icrs", "hcrs"), ("hcrs", "icrs")]⟩ := by
  decide

/-- C9 (amended): the pruning never mutates the original graph value — it
works on deep copies, and after the operation the process-wide variable again
holds (a deep copy of) the full original graph; but while the docstring is
generated the process-wide variable holds the pruned copy, whose every node is
either in `keep_list` or the synthetic "REPLACE" node. -/
theorem c9_pruning_on_copy_and_restored (makeDocs : TGraph → String) (g : TGraph) :
    (_make_sunpy_graph makeDocs g).final = g
    ∧ ((_make_sunpy_graph makeDocs g).mid.names.all
        (fun n => keep_list.contains n || n == "REPLACE")) = true := by
  constructor
  · rfl
  · simp only [_make_sunpy_graph, _add_astropy_node]
    rw [List.all_eq_true]
    intro n hn
    rcases List.mem_append.mp hn with h | h
    · rw [removeFrame_foldl_names] at h
      obtain ⟨hmem, hcull⟩ := List.mem_filter.mp h
      by_cases hk : n ∈ keep_list
      · simp [hk]
      · exfalso
        have hnc : n ∈ g.names.filter (fun m => !keep_list.contains m) :=
          List.mem_filter.mpr ⟨hmem, by simpa using hk⟩
        have hnc2 : n ∉ g.names ∨ n ∈ keep_list := by simpa using hcull
        rcases hnc2 with hnc2 | hnc2
        · exact hnc2 hmem
        · exact hk hnc2
    · simp only [List.mem_singleton] at h
      subst h
      simp
